import Mathlib

/-!
Shallow embedding of `tensorflow/compiler/jit/xla_platform_info.cc`.

Strings are modelled as `List Char`, `Status`/`StatusOr` as `Except ErrorStatus`,
pointers as `Option`-wrapped handles, and the external collaborators
(`se::MultiPlatformManager`, `xla::Compiler`, `xla::ClientLibrary`,
`XlaOpRegistry`) as a record of functions over which theorems quantify.
-/

namespace XlaPlatformInfoModel

/-- Error codes of `tensorflow::error` used by the translated code. -/
inductive ErrCode where
  | notFound
  | invalidArgument
  | unimplemented
  | failedPrecondition
  | internalErr
  | unknownErr
  deriving DecidableEq, Repr

/-- Model of a non-OK `tensorflow::Status`: an error code plus a message. -/
structure ErrorStatus where
  code : ErrCode
  message : List Char
  deriving DecidableEq, Repr

/-- Rendering of an error code, as in `absl::Status::ToString`. -/
def errCodeText : ErrCode → List Char
  | .notFound => (r"NOT_FOUND").toList
  | .invalidArgument => (r"INVALID_ARGUMENT").toList
  | .unimplemented => (r"UNIMPLEMENTED").toList
  | .failedPrecondition => (r"FAILED_PRECONDITION").toList
  | .internalErr => (r"INTERNAL").toList
  | .unknownErr => (r"UNKNOWN").toList

/-- Separator used in status rendering and in the Unimplemented message. -/
def colonSep : List Char := (r": ").toList

/-- Model of `Status::ToString()`: code name, colon, message. -/
def statusToString (s : ErrorStatus) : List Char :=
  errCodeText s.code ++ colonSep ++ s.message

/-- Model of `tensorflow::DeviceType`: a wrapper around the type string
(`DeviceType::type()`). -/
structure DeviceType where
  type : List Char
  deriving DecidableEq, Repr

/-- Device-type string constant `DEVICE_TPU` (from `tpu_defs.h`). -/
def DEVICE_TPU : List Char := (r"TPU").toList

/-- Device-type string constant `DEVICE_TPU_XLA_JIT` (from `tpu_defs.h`). -/
def DEVICE_TPU_XLA_JIT : List Char := (r"XLA_TPU_JIT").toList

/-- Model of `se::Platform`: its id together with its `Name()`. -/
structure Platform where
  id : Nat
  name : List Char
  deriving DecidableEq, Repr

/-- Model of `XlaDevice::Metadata` as consumed by `BuildXlaDeviceCompiler`:
its `jit_device_type()` and its `client()` pointer (a handle, `none` = null). -/
structure XlaDeviceMetadata where
  jit_device_type : DeviceType
  client : Option Nat
  deriving DecidableEq, Repr

/-- Model of `XlaPlatformInfo`: device type, platform id (`none` = unset /
nullptr), optional backend metadata, optional custom allocator handle. -/
structure XlaPlatformInfo where
  device_type : DeviceType
  platform_id : Option Nat
  xla_device_metadata : Option XlaDeviceMetadata
  custom_allocator : Option Nat
  deriving DecidableEq, Repr

/-- Model of `XlaDeviceExecutablePersistor::Config`. -/
structure PersistorConfig where
  persistent_cache_directory : List Char
  disable_strict_signature_checks : Bool
  persistent_cache_prefix : List Char
  deriving DecidableEq, Repr

/-- Model of `GetMarkForCompilationPassFlags()`'s fields read by
`BuildXlaDeviceCompiler`. -/
structure MarkForCompilationPassFlags where
  tf_xla_persistent_cache_directory : List Char
  tf_xla_disable_strict_signature_checks : Bool
  tf_xla_persistent_cache_prefix : List Char
  deriving DecidableEq, Repr

/-- Model of the `XlaDeviceCompiler` produced by `CreateXlaDeviceCompiler`:
the persistor configuration, the device type handed to the persistor, and the
`xla::LocalClient*` wrapped by the compiler client (`none` = null). -/
structure XlaDeviceCompiler where
  persistor_config : PersistorConfig
  device_type : DeviceType
  local_client : Option Nat
  deriving DecidableEq, Repr

/-- Translation of `CreateXlaDeviceCompiler` (anonymous namespace): bundles the
persistor config, device type and local client into a compiler object. -/
def CreateXlaDeviceCompiler (persistor_config : PersistorConfig)
    (device_type : DeviceType) (local_client : Option Nat) : XlaDeviceCompiler :=
  ⟨persistor_config, device_type, local_client⟩

/-- Model of `XlaOpRegistry::DeviceRegistration` as consumed here: its
`compilation_device_name`. -/
structure DeviceRegistration where
  compilation_device_name : List Char
  deriving DecidableEq, Repr

/-- Model of `xla::LocalClientOptions` as populated by
`BuildXlaDeviceCompiler`. -/
structure LocalClientOptions where
  platform : Platform
  intra_op_parallelism_threads : Int
  allowed_devices : Option (Finset Int)
  deriving DecidableEq

/-- Model of `ConfigProto` as consumed here: the
`gpu_options().visible_device_list()` string. -/
structure ConfigProto where
  visible_device_list : List Char
  deriving DecidableEq, Repr

/-- Model of `FunctionLibraryRuntime` as consumed here: its optional
`config_proto()` (a null pointer is `none`). -/
structure FunctionLibraryRuntimeModel where
  config_proto : Option ConfigProto
  deriving DecidableEq, Repr

/-- Model of `DeviceBase` as consumed here: the
`tensorflow_cpu_worker_threads()->num_threads` count and the allocator handle
returned by `device->GetAllocator({})`. -/
structure DeviceBaseModel where
  num_threads : Int
  device_allocator : Nat
  deriving DecidableEq, Repr

/-- External collaborators of the translated code, as a record of functions:
`se::MultiPlatformManager::PlatformWithId`, `xla::Compiler::GetForPlatform`,
`xla::ClientLibrary::GetOrCreateLocalClient` (clients are `Nat` handles) and
`XlaOpRegistry::GetCompilationDevice` (keyed by the device-type string). -/
structure ExternalEnv where
  platformWithId : Option Nat → Except ErrorStatus Platform
  getForPlatform : Platform → Except ErrorStatus Nat
  getOrCreateLocalClient : LocalClientOptions → Except ErrorStatus Nat
  getCompilationDevice : List Char → Option DeviceRegistration

/-- ASCII whitespace as classified by `absl::ascii_isspace`. -/
def isAsciiSpace (c : Char) : Bool :=
  c = ' ' || c = '\t' || c = '\n' || c = '\x0b' || c = '\x0c' || c = '\r'

/-- Strip leading and trailing ASCII whitespace, as
`absl::SimpleAtoi` does before parsing. -/
def trimAsciiSpace (s : List Char) : List Char :=
  ((s.dropWhile isAsciiSpace).reverse.dropWhile isAsciiSpace).reverse

/-- Numeric value of a decimal digit list (most significant first). -/
def digitsVal (ds : List Char) : Int :=
  ds.foldl (fun acc d => acc * 10 + Int.ofNat (d.toNat - 48)) 0

/-- Model of `absl::SimpleAtoi<int32_t>`: optional surrounding ASCII
whitespace, an optional sign, one or more decimal digits, and the value must
fit in a signed 32-bit integer; `none` models a `false` return. -/
def simpleAtoi32 (s : List Char) : Option Int :=
  match trimAsciiSpace s with
  | [] => none
  | c :: rest =>
    let signDigits : Bool × List Char :=
      if c = '-' then (true, rest)
      else if c = '+' then (false, rest)
      else (false, c :: rest)
    let digits := signDigits.2
    if digits = [] then none
    else if digits.all (fun d => d.isDigit) then
      let v : Int := if signDigits.1 then - digitsVal digits else digitsVal digits
      if - (2 ^ 31) ≤ v ∧ v < 2 ^ 31 then some v else none
    else none

/-- Model of `absl::StrSplit(s, ',')`: split into fields at every comma;
the empty string yields one empty field. -/
def splitOnComma : List Char → List (List Char)
  | [] => [[]]
  | c :: rest =>
    match splitOnComma rest with
    | [] => [[c]]
    | t :: ts => if c = ',' then [] :: t :: ts else (c :: t) :: ts

/-- Literal text before the offending entry in the `InvalidArgument` message
of `ParseVisibleDeviceList`. -/
def vdlMsgPart1 : List Char :=
  (r"Could not parse entry in 'visible_device_list': '").toList

/-- Literal text between the offending entry and the echoed full input in the
`InvalidArgument` message of `ParseVisibleDeviceList`. -/
def vdlMsgPart2 : List Char := (r"'. visible_device_list = ").toList

/-- The `InvalidArgument` status built by `ParseVisibleDeviceList` for an
unparsable entry, echoing the entry and the full input string. -/
def vdlInvalidArgument (entry whole : List Char) : ErrorStatus :=
  ⟨.invalidArgument, vdlMsgPart1 ++ entry ++ vdlMsgPart2 ++ whole⟩

/-- Translation of the loop body of `ParseVisibleDeviceList`: parse each
field with `absl::SimpleAtoi`, inserting parsed values into the set `gpu_ids`,
failing with `InvalidArgument` at the first unparsable field. -/
def parseTokensLoop (whole : List Char) :
    List (List Char) → Finset Int → Except ErrorStatus (Finset Int)
  | [], gpu_ids => .ok gpu_ids
  | t :: ts, gpu_ids =>
    match simpleAtoi32 t with
    | none => .error (vdlInvalidArgument t whole)
    | some v => parseTokensLoop whole ts (insert v gpu_ids)

/-- Translation of `ParseVisibleDeviceList`: empty input yields `none`
(unrestricted); otherwise split on commas and parse every field. -/
def ParseVisibleDeviceList (visible_device_list : List Char) :
    Except ErrorStatus (Option (Finset Int)) :=
  if visible_device_list.isEmpty then .ok none
  else
    match parseTokensLoop visible_device_list
        (splitOnComma visible_device_list) ∅ with
    | .error e => .error e
    | .ok gpu_ids => .ok (some gpu_ids)

/-- Translation of `GetAllowedGpus` (anonymous namespace): if the runtime has
a config proto, parse its `visible_device_list`; otherwise no restriction. -/
def GetAllowedGpus (flr : FunctionLibraryRuntimeModel) :
    Except ErrorStatus (Option (Finset Int)) :=
  match flr.config_proto with
  | none => .ok none
  | some cp => ParseVisibleDeviceList cp.visible_device_list

/-- Literal text of the `Unimplemented` message of `BuildXlaDeviceCompiler`
before the platform name. -/
def unimplMsgPart : List Char :=
  (r"Could not find compiler for platform ").toList

/-- The `Unimplemented` status built by `BuildXlaDeviceCompiler` when no
compiler is registered for the resolved platform. -/
def unimplementedCompilerStatus (platformName : List Char)
    (cause : ErrorStatus) : ErrorStatus :=
  ⟨.unimplemented, unimplMsgPart ++ platformName ++ colonSep ++ statusToString cause⟩

/-- Literal text of the `InvalidArgument` message of `BuildXlaDeviceCompiler`
before the device-type string. -/
def noJitMsgPart : List Char := (r"No JIT device registered for ").toList

/-- The `InvalidArgument` status built by `BuildXlaDeviceCompiler` when the
compilation-device registry has no entry for the device-type string. -/
def noJitDeviceStatus (deviceTypeStr : List Char) : ErrorStatus :=
  ⟨.invalidArgument, noJitMsgPart ++ deviceTypeStr⟩

/-- The persistor config assembled from `GetMarkForCompilationPassFlags()` at
the top of `BuildXlaDeviceCompiler`. -/
def persistorConfigOfFlags (flags : MarkForCompilationPassFlags) : PersistorConfig :=
  ⟨flags.tf_xla_persistent_cache_directory,
   flags.tf_xla_disable_strict_signature_checks,
   flags.tf_xla_persistent_cache_prefix⟩

/-- Translation of `BuildXlaDeviceCompiler`. The C++ sets an out-parameter and
returns `Status`; here success carries the constructed compiler. The branch on
a failed `GetForPlatform` returns `Unimplemented` only for a `NOT_FOUND` code
and otherwise falls through, exactly as in the source. -/
def BuildXlaDeviceCompiler (flags : MarkForCompilationPassFlags)
    (env : ExternalEnv) (device : DeviceBaseModel)
    (flr : FunctionLibraryRuntimeModel) (platform_info : XlaPlatformInfo) :
    Except ErrorStatus XlaDeviceCompiler :=
  let persistor_config := persistorConfigOfFlags flags
  match platform_info.xla_device_metadata with
  | some md =>
    .ok (CreateXlaDeviceCompiler persistor_config md.jit_device_type md.client)
  | none =>
    if platform_info.device_type = ⟨DEVICE_TPU⟩ then
      .ok (CreateXlaDeviceCompiler persistor_config ⟨DEVICE_TPU_XLA_JIT⟩ none)
    else
      match env.platformWithId platform_info.platform_id with
      | .error e => .error e
      | .ok platform =>
        let bailOut : Option ErrorStatus :=
          match env.getForPlatform platform with
          | .error status =>
            if status.code = .notFound then
              some (unimplementedCompilerStatus platform.name status)
            else none
          | .ok _ => none
        match bailOut with
        | some e => .error e
        | none =>
          match GetAllowedGpus flr with
          | .error e => .error e
          | .ok allowed_gpus =>
            let client_options : LocalClientOptions :=
              ⟨platform, device.num_threads, allowed_gpus⟩
            match env.getOrCreateLocalClient client_options with
            | .error e => .error e
            | .ok client =>
              match env.getCompilationDevice platform_info.device_type.type with
              | none => .error (noJitDeviceStatus platform_info.device_type.type)
              | some registration =>
                .ok (CreateXlaDeviceCompiler persistor_config
                      ⟨registration.compilation_device_name⟩ (some client))

/-- The allocator values `GetAllocator` can produce: the platform-info's
custom allocator unchanged, or a `TfAllocatorAdapter` wrapping the device's
allocator against a platform or against a stream. -/
inductive AllocatorValue where
  | custom (a : Nat)
  | tfAdapterPlatform (alloc : Nat) (p : Platform)
  | tfAdapterStream (alloc : Nat) (stream : Nat)
  deriving DecidableEq, Repr

/-- Result of the translated `GetAllocator`. The C++ signature cannot report
an error: it returns a `shared_ptr`, and extracts the platform lookup with
`StatusOr::value()`, which aborts the process when the lookup failed.
`aborted` models that process abort. -/
inductive AllocatorResult where
  | ok (a : AllocatorValue)
  | aborted
  deriving DecidableEq, Repr

/-- Translation of `GetAllocator`: return the custom allocator when present;
otherwise wrap `device->GetAllocator({})` in a `TfAllocatorAdapter`, against
the platform looked up by id (extracted with `.value()`, hence `aborted` on a
failed lookup) when no stream is bound, or against the stream otherwise. -/
def GetAllocator (env : ExternalEnv) (device : DeviceBaseModel)
    (stream : Option Nat) (platform_info : XlaPlatformInfo) : AllocatorResult :=
  match platform_info.custom_allocator with
  | some a => .ok (.custom a)
  | none =>
    match stream with
    | none =>
      match env.platformWithId platform_info.platform_id with
      | .error _ => .aborted
      | .ok platform => .ok (.tfAdapterPlatform device.device_allocator platform)
    | some s => .ok (.tfAdapterStream device.device_allocator s)

/-- Substring containment: `needle` occurs contiguously inside `haystack`. -/
def containsSub (needle haystack : List Char) : Prop :=
  ∃ pre post, haystack = pre ++ needle ++ post

/-- Decidable equality for `Except`, used to evaluate results on concrete
inputs. -/
instance instDecidableEqExcept {ε α : Type} [DecidableEq ε] [DecidableEq α] :
    DecidableEq (Except ε α)
  | .ok a, .ok b =>
    if h : a = b then .isTrue (congrArg Except.ok h)
    else .isFalse (fun hc => h (Except.ok.inj hc))
  | .error a, .error b =>
    if h : a = b then .isTrue (congrArg Except.error h)
    else .isFalse (fun hc => h (Except.error.inj hc))
  | .ok _, .error _ => .isFalse (fun hc => Except.noConfusion hc)
  | .error _, .ok _ => .isFalse (fun hc => Except.noConfusion hc)

/-- Flags value used to evaluate the theorems on concrete inputs. -/
def wFlags : MarkForCompilationPassFlags := ⟨[], false, []⟩

/-- Device value used for concrete evaluation: 4 worker threads, allocator
handle 2. -/
def wDevice : DeviceBaseModel := ⟨4, 2⟩

/-- Second device value used for concrete evaluation. -/
def wDevice2 : DeviceBaseModel := ⟨1, 5⟩

/-- Runtime with no config proto, used for concrete evaluation. -/
def wFlrNone : FunctionLibraryRuntimeModel := ⟨none⟩

/-- Runtime whose config proto has `visible_device_list = "0"`, used for
concrete evaluation. -/
def wFlrCfg : FunctionLibraryRuntimeModel := ⟨some ⟨['0']⟩⟩

/-- Platform value used for concrete evaluation. -/
def wPlatform : Platform := ⟨7, ['H', 'o', 's', 't']⟩

/-- A `NOT_FOUND` status used for concrete evaluation. -/
def wNotFound : ErrorStatus := ⟨.notFound, []⟩

/-- An `INTERNAL` (not `NOT_FOUND`) status used for concrete evaluation. -/
def wOther : ErrorStatus := ⟨.internalErr, []⟩

/-- Backend metadata value used for concrete evaluation. -/
def wMeta : XlaDeviceMetadata :=
  ⟨⟨['X', 'L', 'A', '_', 'G', 'P', 'U', '_', 'J', 'I', 'T']⟩, some 3⟩

/-- Device registration value used for concrete evaluation. -/
def wReg : DeviceRegistration :=
  ⟨['X', 'L', 'A', '_', 'C', 'P', 'U', '_', 'J', 'I', 'T']⟩

/-- Platform info of a GPU-typed device with no metadata and no custom
allocator. -/
def wPiGPU : XlaPlatformInfo := ⟨⟨['G', 'P', 'U']⟩, some 7, none, none⟩

/-- Platform info of a TPU-typed device with no metadata. -/
def wPiTPU : XlaPlatformInfo := ⟨⟨['T', 'P', 'U']⟩, none, none, none⟩

/-- Platform info carrying backend metadata. -/
def wPiMeta : XlaPlatformInfo :=
  ⟨⟨['X', 'L', 'A', '_', 'G', 'P', 'U']⟩, some 7, some wMeta, none⟩

/-- Platform info carrying a custom allocator (handle 9). -/
def wPiAlloc : XlaPlatformInfo := ⟨⟨['C', 'P', 'U']⟩, some 7, none, some 9⟩

/-- Platform info with an unset platform id, no metadata, no custom
allocator. -/
def cexPi : XlaPlatformInfo := ⟨⟨['C', 'P', 'U']⟩, none, none, none⟩

/-- Platform info with a set but unknown platform id, no metadata, no custom
allocator. -/
def wPiNoAlloc : XlaPlatformInfo := ⟨⟨['C', 'P', 'U']⟩, some 5, none, none⟩

/-- Environment where the platform resolves but the compiler lookup reports
`NOT_FOUND`. -/
def wEnvC1 : ExternalEnv :=
  ⟨fun _ => .ok wPlatform, fun _ => .error wNotFound, fun _ => .ok 1,
   fun _ => none⟩

/-- Environment where platform and compiler lookups succeed but the
compilation-device registry is empty. -/
def wEnvC5 : ExternalEnv :=
  ⟨fun _ => .ok wPlatform, fun _ => .ok 0, fun _ => .ok 1, fun _ => none⟩

/-- Environment where the compiler lookup fails with a non-`NOT_FOUND` code
while everything else succeeds. -/
def wEnvC10 : ExternalEnv :=
  ⟨fun _ => .ok wPlatform, fun _ => .error wOther, fun _ => .ok 1,
   fun _ => some wReg⟩

/-- Environment where the platform lookup fails with `NOT_FOUND`. -/
def cexEnv : ExternalEnv :=
  ⟨fun _ => .error wNotFound, fun _ => .error wNotFound,
   fun _ => .error wNotFound, fun _ => none⟩

/-- Environment where the platform lookup fails with an `INTERNAL` error. -/
def wEnvBadPlat : ExternalEnv :=
  ⟨fun _ => .error wOther, fun _ => .ok 0, fun _ => .ok 1, fun _ => none⟩

/-- Input list for evaluating the valid-parse theorem: `"0,1,1,2"`. -/
def w6a : List Char := ['0', ',', '1', ',', '1', ',', '2']

/-- Reordering of `w6a`'s fields: `"1,2,0,1"`. -/
def w6b : List Char := ['1', ',', '2', ',', '0', ',', '1']

/-- Input list for evaluating the parse-failure theorem: `"0,x"`. -/
def w8 : List Char := ['0', ',', 'x']

/-- Running the parse loop over fields that all parse yields the accumulator
united with the finite set of all parsed values. -/
theorem parseTokensLoop_all_ok (whole : List Char) :
    ∀ (ts : List (List Char)) (acc : Finset Int),
      (∀ t ∈ ts, (simpleAtoi32 t).isSome) →
      parseTokensLoop whole ts acc =
        .ok (acc ∪ (ts.filterMap simpleAtoi32).toFinset)
  | [], acc, _ => by simp [parseTokensLoop]
  | t :: ts, acc, hall => by
    obtain ⟨v, hv⟩ := Option.isSome_iff_exists.mp (hall t (by simp))
    have ih := parseTokensLoop_all_ok whole ts (insert v acc)
      (fun u hu => hall u (List.mem_cons_of_mem _ hu))
    simp only [parseTokensLoop, hv, ih, List.filterMap_cons, List.toFinset_cons]
    simp [Finset.insert_union, Finset.union_insert]

/-- Running the parse loop over fields among which some field fails to parse
yields the `InvalidArgument` error for such a field, whatever the
accumulator. -/
theorem parseTokensLoop_first_err (whole : List Char) :
    ∀ (ts : List (List Char)) (acc : Finset Int),
      (∃ t ∈ ts, simpleAtoi32 t = none) →
      ∃ t ∈ ts, simpleAtoi32 t = none ∧
        parseTokensLoop whole ts acc = .error (vdlInvalidArgument t whole)
  | [], _, h => absurd h (by simp)
  | t :: ts, acc, h => by
    cases hv : simpleAtoi32 t with
    | none => exact ⟨t, by simp, hv, by simp [parseTokensLoop, hv]⟩
    | some v =>
      have htail : ∃ u ∈ ts, simpleAtoi32 u = none := by
        obtain ⟨u, hu, hun⟩ := h
        rcases List.mem_cons.mp hu with h1 | h2
        · subst h1; rw [hv] at hun; exact absurd hun (by simp)
        · exact ⟨u, h2, hun⟩
      obtain ⟨u, hu, hun, heq⟩ :=
        parseTokensLoop_first_err whole ts (insert v acc) htail
      exact ⟨u, List.mem_cons_of_mem _ hu, hun, by simp [parseTokensLoop, hv, heq]⟩

/-- Nonempty lists are not `isEmpty`. -/
theorem isEmpty_false_of_ne_nil {s : List Char} (h : s ≠ []) :
    s.isEmpty = false := by
  cases s with
  | nil => exact absurd rfl h
  | cons c cs => rfl

/-- C6: for every non-empty comma-separated string whose every field parses
as a signed 32-bit integer, `ParseVisibleDeviceList` succeeds and returns
exactly the de-duplicated set of the parsed integers, and any reordering of
the fields yields the same result. -/
theorem C6_valid_tokens_parse_to_set (s : List Char) (hne : s ≠ [])
    (hall : ∀ t ∈ splitOnComma s, (simpleAtoi32 t).isSome) :
    ParseVisibleDeviceList s =
        .ok (some ((splitOnComma s).filterMap simpleAtoi32).toFinset) ∧
      ∀ s2, s2 ≠ [] → (splitOnComma s2).Perm (splitOnComma s) →
        ParseVisibleDeviceList s2 = ParseVisibleDeviceList s := by
  have main : ∀ u : List Char, u ≠ [] →
      (∀ t ∈ splitOnComma u, (simpleAtoi32 t).isSome) →
      ParseVisibleDeviceList u =
        .ok (some ((splitOnComma u).filterMap simpleAtoi32).toFinset) := by
    intro u hu hallu
    simp only [ParseVisibleDeviceList]
    rw [if_neg (by simp [isEmpty_false_of_ne_nil hu]),
      parseTokensLoop_all_ok u (splitOnComma u) ∅ hallu]
    simp
  refine ⟨main s hne hall, ?_⟩
  intro s2 h2 hperm
  have hall2 : ∀ t ∈ splitOnComma s2, (simpleAtoi32 t).isSome :=
    fun t ht => hall t (hperm.mem_iff.mp ht)
  rw [main s2 h2 hall2, main s hne hall,
    List.toFinset_eq_of_perm _ _ (hperm.filterMap simpleAtoi32)]

/-- C6 witness: `"0,1,1,2"` parses to `{0, 1, 2}` and the reordering
`"1,2,0,1"` parses to the same result. -/
theorem C6_valid_tokens_parse_to_set_witness :
    ParseVisibleDeviceList w6a =
        .ok (some ((splitOnComma w6a).filterMap simpleAtoi32).toFinset) ∧
      ParseVisibleDeviceList w6b = ParseVisibleDeviceList w6a :=
  ⟨(C6_valid_tokens_parse_to_set w6a (by decide) (by decide)).1,
   (C6_valid_tokens_parse_to_set w6a (by decide) (by decide)).2 w6b
     (by decide) (by decide)⟩

/-- C7: `ParseVisibleDeviceList` applied to the empty string succeeds with
`none` (unrestricted), not an engaged empty set. -/
theorem C7_empty_input_unrestricted :
    ParseVisibleDeviceList [] = .ok none := rfl

/-- C8: for every non-empty input among whose comma-separated fields some
field fails 32-bit integer parsing, `ParseVisibleDeviceList` fails with
`InvalidArgument` and the message contains both the offending field and the
full original input. -/
theorem C8_bad_token_invalid_argument (s : List Char) (hne : s ≠ [])
    (hbad : ∃ t ∈ splitOnComma s, simpleAtoi32 t = none) :
    ∃ t ∈ splitOnComma s, simpleAtoi32 t = none ∧
      ∃ e, ParseVisibleDeviceList s = .error e ∧
        e.code = ErrCode.invalidArgument ∧
        containsSub t e.message ∧ containsSub s e.message := by
  obtain ⟨t, ht, htn, heq⟩ :=
    parseTokensLoop_first_err s (splitOnComma s) ∅ hbad
  refine ⟨t, ht, htn, vdlInvalidArgument t s, ?_, rfl, ?_, ?_⟩
  · simp only [ParseVisibleDeviceList]
    rw [if_neg (by simp [isEmpty_false_of_ne_nil hne]), heq]
  · exact ⟨vdlMsgPart1, vdlMsgPart2 ++ s, by simp [vdlInvalidArgument]⟩
  · exact ⟨vdlMsgPart1 ++ t ++ vdlMsgPart2, [], by simp [vdlInvalidArgument]⟩

/-- C8 witness: `"0,x"` fails with `InvalidArgument` naming `"x"` and echoing
the whole input. -/
theorem C8_bad_token_invalid_argument_witness :
    ∃ t ∈ splitOnComma w8, simpleAtoi32 t = none ∧
      ∃ e, ParseVisibleDeviceList w8 = .error e ∧
        e.code = ErrCode.invalidArgument ∧
        containsSub t e.message ∧ containsSub w8 e.message :=
  C8_bad_token_invalid_argument w8 (by decide) (by decide)

/-- C1: with no backend metadata, a non-TPU device type, a resolved platform
and a compiler lookup failing with `NOT_FOUND`, `BuildXlaDeviceCompiler`
fails with exactly the `Unimplemented` status (so no compiler is produced),
whose message contains the platform's name. -/
theorem C1_missing_compiler_unimplemented (flags : MarkForCompilationPassFlags)
    (env : ExternalEnv) (device : DeviceBaseModel)
    (flr : FunctionLibraryRuntimeModel) (pi : XlaPlatformInfo)
    (p : Platform) (st : ErrorStatus)
    (hmd : pi.xla_device_metadata = none)
    (htpu : pi.device_type ≠ ⟨DEVICE_TPU⟩)
    (hplat : env.platformWithId pi.platform_id = .ok p)
    (hcomp : env.getForPlatform p = .error st)
    (hnf : st.code = ErrCode.notFound) :
    BuildXlaDeviceCompiler flags env device flr pi =
        .error (unimplementedCompilerStatus p.name st) ∧
      (unimplementedCompilerStatus p.name st).code = ErrCode.unimplemented ∧
      containsSub p.name (unimplementedCompilerStatus p.name st).message := by
  refine ⟨?_, rfl,
    ⟨unimplMsgPart, colonSep ++ statusToString st,
      by simp [unimplementedCompilerStatus]⟩⟩
  simp [BuildXlaDeviceCompiler, hmd, htpu, hplat, hcomp, hnf]

/-- C1 witness: concrete evaluation where the compiler lookup reports
`NOT_FOUND` for the resolved platform. -/
theorem C1_missing_compiler_unimplemented_witness :
    BuildXlaDeviceCompiler wFlags wEnvC1 wDevice wFlrNone wPiGPU =
        .error (unimplementedCompilerStatus wPlatform.name wNotFound) ∧
      (unimplementedCompilerStatus wPlatform.name wNotFound).code =
        ErrCode.unimplemented ∧
      containsSub wPlatform.name
        (unimplementedCompilerStatus wPlatform.name wNotFound).message :=
  C1_missing_compiler_unimplemented wFlags wEnvC1 wDevice wFlrNone wPiGPU
    wPlatform wNotFound rfl (by decide) rfl rfl rfl

/-- C3: with backend metadata present, `BuildXlaDeviceCompiler` succeeds with
the compiler built from the metadata's own device type and client, and the
result is independent of the external environment, the device and the
runtime — no platform discovery, client-registry call or
compilation-device-registry lookup is consulted. -/
theorem C3_metadata_path_direct (flags : MarkForCompilationPassFlags)
    (env env2 : ExternalEnv) (device device2 : DeviceBaseModel)
    (flr flr2 : FunctionLibraryRuntimeModel) (pi : XlaPlatformInfo)
    (md : XlaDeviceMetadata) (hmd : pi.xla_device_metadata = some md) :
    BuildXlaDeviceCompiler flags env device flr pi =
        .ok (CreateXlaDeviceCompiler (persistorConfigOfFlags flags)
          md.jit_device_type md.client) ∧
      BuildXlaDeviceCompiler flags env device flr pi =
        BuildXlaDeviceCompiler flags env2 device2 flr2 pi := by
  constructor <;> simp [BuildXlaDeviceCompiler, hmd]

/-- C3 witness: concrete evaluation with metadata bound, under two unrelated
environments, devices and runtimes. -/
theorem C3_metadata_path_direct_witness :
    BuildXlaDeviceCompiler wFlags wEnvC1 wDevice wFlrNone wPiMeta =
        .ok (CreateXlaDeviceCompiler (persistorConfigOfFlags wFlags)
          wMeta.jit_device_type wMeta.client) ∧
      BuildXlaDeviceCompiler wFlags wEnvC1 wDevice wFlrNone wPiMeta =
        BuildXlaDeviceCompiler wFlags wEnvC10 wDevice2 wFlrCfg wPiMeta :=
  C3_metadata_path_direct wFlags wEnvC1 wEnvC10 wDevice wDevice2 wFlrNone
    wFlrCfg wPiMeta wMeta rfl

/-- C4: with no backend metadata and the TPU device type,
`BuildXlaDeviceCompiler` succeeds with a compiler tagged with the fixed
`DEVICE_TPU_XLA_JIT` type and a null client. -/
theorem C4_tpu_fixed_tag_null_client (flags : MarkForCompilationPassFlags)
    (env : ExternalEnv) (device : DeviceBaseModel)
    (flr : FunctionLibraryRuntimeModel) (pi : XlaPlatformInfo)
    (hmd : pi.xla_device_metadata = none)
    (htpu : pi.device_type = ⟨DEVICE_TPU⟩) :
    BuildXlaDeviceCompiler flags env device flr pi =
      .ok (CreateXlaDeviceCompiler (persistorConfigOfFlags flags)
        ⟨DEVICE_TPU_XLA_JIT⟩ none) := by
  simp [BuildXlaDeviceCompiler, hmd, htpu]

/-- C4 witness: concrete evaluation on a TPU-typed device with no
metadata. -/
theorem C4_tpu_fixed_tag_null_client_witness :
    BuildXlaDeviceCompiler wFlags wEnvC5 wDevice wFlrNone wPiTPU =
      .ok (CreateXlaDeviceCompiler (persistorConfigOfFlags wFlags)
        ⟨DEVICE_TPU_XLA_JIT⟩ none) :=
  C4_tpu_fixed_tag_null_client wFlags wEnvC5 wDevice wFlrNone wPiTPU rfl rfl

/-- C5: on the generic path (no metadata, not TPU, platform resolved, no
`NOT_FOUND` bail-out, allowed-GPU parsing and client creation succeeding),
an absent compilation-device registration makes `BuildXlaDeviceCompiler`
fail with exactly the `InvalidArgument` status whose message contains the
device-type string. -/
theorem C5_unregistered_device_invalid_argument
    (flags : MarkForCompilationPassFlags) (env : ExternalEnv)
    (device : DeviceBaseModel) (flr : FunctionLibraryRuntimeModel)
    (pi : XlaPlatformInfo) (p : Platform) (gpus : Option (Finset Int))
    (c : Nat)
    (hmd : pi.xla_device_metadata = none)
    (htpu : pi.device_type ≠ ⟨DEVICE_TPU⟩)
    (hplat : env.platformWithId pi.platform_id = .ok p)
    (hcomp : ∀ st, env.getForPlatform p = .error st →
      st.code ≠ ErrCode.notFound)
    (hgpus : GetAllowedGpus flr = .ok gpus)
    (hclient : env.getOrCreateLocalClient ⟨p, device.num_threads, gpus⟩ =
      .ok c)
    (hreg : env.getCompilationDevice pi.device_type.type = none) :
    BuildXlaDeviceCompiler flags env device flr pi =
        .error (noJitDeviceStatus pi.device_type.type) ∧
      (noJitDeviceStatus pi.device_type.type).code =
        ErrCode.invalidArgument ∧
      containsSub pi.device_type.type
        (noJitDeviceStatus pi.device_type.type).message := by
  refine ⟨?_, rfl, ⟨noJitMsgPart, [], by simp [noJitDeviceStatus]⟩⟩
  cases hc : env.getForPlatform p with
  | error st =>
    have hnf := hcomp st hc
    simp [BuildXlaDeviceCompiler, hmd, htpu, hplat, hc, hnf, hgpus,
      hclient, hreg]
  | ok r =>
    simp [BuildXlaDeviceCompiler, hmd, htpu, hplat, hc, hgpus, hclient, hreg]

/-- C5 witness: concrete evaluation where the compilation-device registry
has no entry for the GPU type string. -/
theorem C5_unregistered_device_invalid_argument_witness :
    BuildXlaDeviceCompiler wFlags wEnvC5 wDevice wFlrNone wPiGPU =
        .error (noJitDeviceStatus wPiGPU.device_type.type) ∧
      (noJitDeviceStatus wPiGPU.device_type.type).code =
        ErrCode.invalidArgument ∧
      containsSub wPiGPU.device_type.type
        (noJitDeviceStatus wPiGPU.device_type.type).message :=
  C5_unregistered_device_invalid_argument wFlags wEnvC5 wDevice wFlrNone
    wPiGPU wPlatform none 1 rfl (by decide) rfl
    (fun st h => Except.noConfusion h) rfl rfl rfl

/-- C10: on the generic path, a compiler lookup failing with a code other
than `NOT_FOUND` is silently discarded: with allowed-GPU parsing, client
creation and the registry lookup succeeding, `BuildXlaDeviceCompiler` still
returns success. -/
theorem C10_non_notfound_lookup_error_discarded
    (flags : MarkForCompilationPassFlags) (env : ExternalEnv)
    (device : DeviceBaseModel) (flr : FunctionLibraryRuntimeModel)
    (pi : XlaPlatformInfo) (p : Platform) (st : ErrorStatus)
    (gpus : Option (Finset Int)) (c : Nat) (reg : DeviceRegistration)
    (hmd : pi.xla_device_metadata = none)
    (htpu : pi.device_type ≠ ⟨DEVICE_TPU⟩)
    (hplat : env.platformWithId pi.platform_id = .ok p)
    (hcomp : env.getForPlatform p = .error st)
    (hnf : st.code ≠ ErrCode.notFound)
    (hgpus : GetAllowedGpus flr = .ok gpus)
    (hclient : env.getOrCreateLocalClient ⟨p, device.num_threads, gpus⟩ =
      .ok c)
    (hreg : env.getCompilationDevice pi.device_type.type = some reg) :
    BuildXlaDeviceCompiler flags env device flr pi =
      .ok (CreateXlaDeviceCompiler (persistorConfigOfFlags flags)
        ⟨reg.compilation_device_name⟩ (some c)) := by
  simp [BuildXlaDeviceCompiler, hmd, htpu, hplat, hcomp, hnf, hgpus,
    hclient, hreg]

/-- C10 witness: concrete evaluation where the compiler lookup fails with an
`INTERNAL` error yet the build succeeds. -/
theorem C10_non_notfound_lookup_error_discarded_witness :
    BuildXlaDeviceCompiler wFlags wEnvC10 wDevice wFlrCfg wPiGPU =
      .ok (CreateXlaDeviceCompiler (persistorConfigOfFlags wFlags)
        ⟨wReg.compilation_device_name⟩ (some 1)) :=
  C10_non_notfound_lookup_error_discarded wFlags wEnvC10 wDevice wFlrCfg
    wPiGPU wPlatform wOther (some {0}) 1 wReg rfl (by decide) rfl rfl
    (by decide) (by decide) rfl rfl

/-- C2 counterexample: at a concrete input with no custom allocator, no
stream and an unresolvable platform id, `GetAllocator` aborts the process
(the platform lookup is extracted with `StatusOr::value()`) instead of
reporting an error, refuting the claim that it never aborts there. -/
theorem C2_counterexample_platform_value_abort :
    cexPi.custom_allocator = none ∧
      cexEnv.platformWithId cexPi.platform_id = .error wNotFound ∧
      GetAllocator cexEnv wDevice none cexPi = .aborted :=
  ⟨rfl, rfl, rfl⟩

/-- C2 amended: whenever the platform info has no custom allocator, no
stream is bound and the platform lookup for its platform id fails,
`GetAllocator` aborts the process rather than reporting an error. -/
theorem C2_amended_unresolvable_platform_aborts (env : ExternalEnv)
    (device : DeviceBaseModel) (pi : XlaPlatformInfo) (e : ErrorStatus)
    (hca : pi.custom_allocator = none)
    (hplat : env.platformWithId pi.platform_id = .error e) :
    GetAllocator env device none pi = .aborted := by
  simp [GetAllocator, hca, hplat]

/-- C2 amended witness: concrete evaluation where the platform lookup fails
with an `INTERNAL` error. -/
theorem C2_amended_unresolvable_platform_aborts_witness :
    GetAllocator wEnvBadPlat wDevice2 none wPiNoAlloc = .aborted :=
  C2_amended_unresolvable_platform_aborts wEnvBadPlat wDevice2 wPiNoAlloc
    wOther rfl rfl

/-- C9: whenever the platform info carries a custom allocator,
`GetAllocator` returns exactly that allocator, for any stream (bound or
not), and the result is independent of the environment, the device (so the
device's allocator accessor is not consulted) and the stream. -/
theorem C9_custom_allocator_returned_unchanged (env env2 : ExternalEnv)
    (device device2 : DeviceBaseModel) (stream stream2 : Option Nat)
    (pi : XlaPlatformInfo) (a : Nat)
    (hca : pi.custom_allocator = some a) :
    GetAllocator env device stream pi = .ok (.custom a) ∧
      GetAllocator env device stream pi =
        GetAllocator env2 device2 stream2 pi := by
  constructor <;> simp [GetAllocator, hca]

/-- C9 witness: concrete evaluation with a custom allocator, under two
unrelated environments, devices and streams (one bound, one not). -/
theorem C9_custom_allocator_returned_unchanged_witness :
    GetAllocator wEnvC5 wDevice none wPiAlloc = .ok (.custom 9) ∧
      GetAllocator wEnvC5 wDevice none wPiAlloc =
        GetAllocator wEnvC10 wDevice2 (some 3) wPiAlloc :=
  C9_custom_allocator_returned_unchanged wEnvC5 wEnvC10 wDevice wDevice2
    none (some 3) wPiAlloc 9 rfl

end XlaPlatformInfoModel
